import Mathlib

/-!
Verification of the word-chain game bot core (models.py, word_processor.py,
game_manager.py, message_handler.py, timer_manager.py, concurrent_manager.py)
against its natural-language specification.

Shallow embedding conventions:
* Python `int` is `Int`; counters that the code only ever increments are `Nat`.
* `datetime` anchors (`turn_start_time`) and `asyncio.Task` handles
  (`timer_task`, `waiting_timer_task`) are wall-clock / scheduler state and are
  not modelled; no claim below depends on them.
* A Python function that can raise an uncaught exception is embedded with
  result type `Except Unit _`; `.error ()` is the propagating exception.
* The injected dictionary capability (`word_validators.WordValidator`) is a
  parameter `validator : String → Except Unit Bool`; `.error ()` models the
  `ValidationServiceUnavailable` exception.
-/

deriving instance DecidableEq for Except

namespace WordChain

/-! Python string primitives, defined structurally over `String.data` so that
concrete instances evaluate inside the kernel (`decide` / `rfl`).  They model
the exact `str` methods the bot uses on its ASCII inputs. -/

/-- Python `str.lower()`. -/
def py_lower (s : String) : String := String.mk (s.data.map Char.toLower)

/-- Python `str.upper()`. -/
def py_upper (s : String) : String := String.mk (s.data.map Char.toUpper)

/-- Python `str.strip()`: drop whitespace from both ends. -/
def py_strip (s : String) : String :=
  String.mk (((s.data.dropWhile Char.isWhitespace).reverse.dropWhile
      Char.isWhitespace).reverse)

/-- Python `str.startswith(pre)`. -/
def py_startswith (s pre : String) : Bool := pre.data.isPrefixOf s.data

/-- Python `word[-1]`: last character.  Raises `IndexError` on the empty
string; every use below is guarded by a non-emptiness fact, so the default
is irrelevant. -/
def py_back (s : String) : Char := s.data.getLast?.getD 'A'

/-- Player (models.py lines 13-25): identity, display names, active flag. -/
structure Player where
  user_id : Int
  username : String
  first_name : String
  is_active : Bool := true
deriving DecidableEq, Repr

/-- `Player.__str__` (models.py lines 21-25): mention string used in messages. -/
def player_str (p : Player) : String :=
  if p.username ≠ "" then "@" ++ p.username else p.first_name

/-- GameConfig (models.py lines 28-35). -/
structure GameConfig where
  turn_timeout : Nat := 30
  min_word_length : Nat := 2
  max_word_length : Nat := 20
  max_players_per_game : Nat := 10
  timeout_warnings : List Nat := [15, 10, 5]
deriving DecidableEq, Repr

/-- GameResult (models.py lines 49-57). -/
inductive GameResult where
  | validWord
  | invalidLetter
  | invalidLength
  | invalidWord
  | wrongPlayer
  | noActiveGame
  | validationError
deriving DecidableEq, Repr

/-- GameState (models.py lines 60-77).

The dataclass declares no `used_words` field, yet word_processor.py lines 69
and 94 read and mutate `game_state.used_words`.  No code in the repository
ever assigns that attribute, so every state the program constructs (e.g.
game_manager.py lines 72-81 and 117-129) lacks it and the first read raises
`AttributeError`.  We model the dynamic attribute as
`used_words : Option (List String)`: `none` means the attribute is absent
(the only value reachable in the program), `some ws` means a set containing
the words `ws` is present. -/
structure GameState where
  chat_id : Int
  current_letter : String
  required_length : Nat
  current_player_index : Int
  players : List Player
  is_active : Bool := true
  game_config : GameConfig := {}
  is_waiting_for_players : Bool := true
  rounds_completed : Nat := 0
  current_round_turns : Nat := 0
  used_words : Option (List String) := none
deriving DecidableEq, Repr

/-- Python list subscript `l[i]` for `i : Int`: non-negative indexes from the
front, negative indexes from the back (`l[i] = l[len l + i]`), out-of-range
raises `IndexError` (modelled as `.error ()`). -/
def py_get (l : List Player) (i : Int) : Except Unit Player :=
  if h : 0 ≤ i ∧ i.toNat < l.length then .ok (l.get ⟨i.toNat, h.2⟩)
  else if h' : 0 ≤ (l.length : Int) + i ∧ ((l.length : Int) + i).toNat < l.length ∧ i < 0 then
    .ok (l.get ⟨((l.length : Int) + i).toNat, h'.2.1⟩)
  else .error ()

/-- `GameState.get_current_player` (models.py lines 79-83):
returns `none` when the player list is empty or the index is `≥ len(players)`;
otherwise performs the Python subscript `self.players[self.current_player_index]`,
which for a negative index counts from the end and can raise `IndexError`. -/
def GameState.get_current_player (gs : GameState) : Except Unit (Option Player) :=
  if gs.players.isEmpty ∨ (gs.players.length : Int) ≤ gs.current_player_index then
    .ok none
  else
    (py_get gs.players gs.current_player_index).map some

/-- `GameState.advance_turn` (models.py lines 85-89); the `turn_start_time`
re-anchor is not modelled.  Lean `Int.emod` agrees with Python `%` for a
positive divisor (result in `[0, n)`). -/
def GameState.advance_turn (gs : GameState) : GameState :=
  if gs.players.isEmpty then gs
  else { gs with current_player_index :=
          (gs.current_player_index + 1) % (gs.players.length : Int) }

/-- Index of the first player with the given id, mirroring the
`for i, player in enumerate(self.players)` scan of models.py lines 93-94. -/
def first_idx_with_id (uid : Int) : List Player → Option Nat
  | [] => none
  | p :: rest =>
    if p.user_id = uid then some 0
    else (first_idx_with_id uid rest).map (· + 1)

/-- `GameState.remove_player` (models.py lines 91-103): removes the first
player with the given id; decrements the index when the removed position is
strictly before it, resets it to 0 when the removed position is the current
one and the current index is `≥ len(players) - 1`. -/
def GameState.remove_player (gs : GameState) (uid : Int) : Bool × GameState :=
  match first_idx_with_id uid gs.players with
  | none => (false, gs)
  | some i =>
    let idx := gs.current_player_index
    let idx' :=
      if (i : Int) < idx then idx - 1
      else if (i : Int) = idx ∧ (gs.players.length : Int) - 1 ≤ idx then 0
      else idx
    (true, { gs with current_player_index := idx',
                     players := gs.players.eraseIdx i })

/-- `GameState.add_player` (models.py lines 105-117): rejects a duplicate id
or a full room, otherwise appends. -/
def GameState.add_player (gs : GameState) (p : Player) : Bool × GameState :=
  if gs.players.any (fun q => q.user_id == p.user_id) then (false, gs)
  else if gs.game_config.max_players_per_game ≤ gs.players.length then (false, gs)
  else (true, { gs with players := gs.players ++ [p] })

/-- `GameState.should_end_game` (models.py lines 119-122): true iff at most
one active player remains. -/
def GameState.should_end_game (gs : GameState) : Bool :=
  decide ((gs.players.filter (fun p => p.is_active)).length ≤ 1)

/-- One bounded pass of the `while attempts < max_attempts` loop of
`skip_inactive_players` (models.py lines 152-158); `fuel` is the remaining
attempt budget.  An `IndexError` from `get_current_player` propagates. -/
def GameState.skip_go (gs : GameState) : Nat → Except Unit GameState
  | 0 => .ok gs
  | fuel + 1 =>
    match gs.get_current_player with
    | .error e => .error e
    | .ok cp =>
      if (cp.map Player.is_active).getD false then .ok gs
      else
        GameState.skip_go
          { gs with current_player_index :=
              (gs.current_player_index + 1) % (gs.players.length : Int) }
          fuel

/-- `GameState.skip_inactive_players` (models.py lines 144-161); the
`turn_start_time` update is not modelled. -/
def GameState.skip_inactive_players (gs : GameState) : Except Unit GameState :=
  if gs.players.isEmpty then .ok gs
  else gs.skip_go gs.players.length

/-- `WordProcessor._validate_word_format` (word_processor.py lines 101-130):
empty submissions are rejected, the word is trimmed and lowercased, and the
normalized form must match `^[a-zA-Z]+$`.  `Char.isAlpha` is exactly the
ASCII letter class of that regex.  Message texts throughout this file are
abbreviated from the source strings; no claim depends on their exact
wording, only on their presence. -/
def validate_word_format (word : String) : String × Option (GameResult × String) :=
  if word = "" then ("", some (.invalidWord, "Please enter a word"))
  else
    let normalized := py_lower (py_strip word)
    if normalized = "" then ("", some (.invalidWord, "Please enter a valid word"))
    else if ¬ normalized.data.all Char.isAlpha then
      (normalized, some (.invalidWord, "Words can only contain letters"))
    else (normalized, none)

/-- Message attached to every `WRONG_PLAYER` result of
`process_word_submission` (word_processor.py line 61). -/
def wrong_turn_message (cp : Player) : String :=
  "It is " ++ player_str cp ++ " turn, not yours"

/-- `WordProcessor.process_word_submission` (word_processor.py lines 33-99).
The whole body runs inside `try ... except Exception`, so any exception other
than the explicitly handled `ValidationServiceUnavailable` yields
`(VALIDATION_ERROR, "An error occurred while processing your word")`.  Two
such exceptions are reachable and modelled: an `IndexError` escaping
`get_current_player` (deeply negative corrupted index) and the
`AttributeError` from reading the undeclared `used_words` attribute
(line 69) when `gs.used_words = none`.  The returned `GameState` is the
state after the call (the source mutates `game_state` in place; the only
mutation is `used_words.add` on line 94). -/
def process_word_submission (validator : String → Except Unit Bool)
    (gs : GameState) (player_id : Int) (word : String) :
    GameResult × Option String × GameState :=
  if ¬ gs.is_active then
    (.noActiveGame, some "No active game in this chat", gs)
  else
    match gs.get_current_player with
    | .error _ =>
      (.validationError, some "An error occurred while processing your word", gs)
    | .ok none => (.noActiveGame, some "No current player found", gs)
    | .ok (some cp) =>
      if cp.user_id ≠ player_id then
        (.wrongPlayer, some (wrong_turn_message cp), gs)
      else
        match validate_word_format word with
        | (_, some (r, m)) => (r, some m, gs)
        | (normalized, none) =>
          match gs.used_words with
          | none =>
            (.validationError,
             some "An error occurred while processing your word", gs)
          | some used =>
            if normalized ∈ used then
              (.invalidWord, some "has already been used", gs)
            else if ¬ py_startswith normalized (py_lower gs.current_letter) then
              (.invalidLetter,
               some ("Word must start with " ++ py_upper gs.current_letter), gs)
            else if normalized.length < gs.required_length then
              (.invalidLength, some "Word is too short", gs)
            else
              match validator normalized with
              | .error _ =>
                (.validationError,
                 some "Word validation service is temporarily unavailable", gs)
              | .ok false =>
                (.invalidWord, some "is not a valid English word", gs)
              | .ok true =>
                (.validWord, none,
                 { gs with used_words := some (normalized :: used) })

/-- `WordProcessor.get_next_game_state` (word_processor.py lines 154-191):
letter becomes the uppercased last character of the accepted word (Python
`word[-1]` raises on an empty string; every accepted word is non-empty, and
the theorems below assume `word ≠ ""`), the turn advances, and the
round/length bookkeeping of lines 172-183 runs. -/
def get_next_game_state (word : String) (gs : GameState) : GameState :=
  let gs1 := { gs with current_letter := String.mk [(py_back word).toUpper] }
  let gs2 := gs1.advance_turn
  let gs3 := { gs2 with current_round_turns := gs2.current_round_turns + 1 }
  if gs3.players.length ≤ gs3.current_round_turns then
    let gs4 := { gs3 with rounds_completed := gs3.rounds_completed + 1,
                          current_round_turns := 0 }
    if 2 ≤ gs4.rounds_completed ∧ gs4.rounds_completed % 2 = 0 then
      { gs4 with required_length := gs4.required_length + 1 }
    else gs4
  else gs3

/-- `GameManager.process_word` (game_manager.py lines 174-210) restricted to
one room: the registry lookup is the caller's business, timer-task
cancellation and metrics registration are not modelled.  On `VALID_WORD` the
manager recomputes the normalized word (line 193) and applies
`get_next_game_state`. -/
def game_manager_process_word (validator : String → Except Unit Bool)
    (gs : GameState) (player_id : Int) (word : String) :
    GameResult × Option String × GameState :=
  let (r, m, gs') := process_word_submission validator gs player_id word
  if r = .validWord then (r, m, get_next_game_state (py_lower (py_strip word)) gs')
  else (r, m, gs')

/-- `GameManager.handle_timeout` (game_manager.py lines 212-247) on one room:
eliminates the current player, skips to an active player while more than one
player remains, and marks the game inactive when at most one player is left.
Timer-task clearing, metrics and `turn_start_time` are not modelled.  An
`IndexError` from `get_current_player` or `skip_inactive_players` propagates
(the method has no exception handler). -/
def handle_timeout (gs : GameState) : Except Unit (Option Player × GameState) :=
  if ¬ gs.is_active then .ok (none, gs)
  else
    match gs.get_current_player with
    | .error e => .error e
    | .ok none => .ok (none, gs)
    | .ok (some cp) =>
      let gs1 := (gs.remove_player cp.user_id).2
      match (if 1 < gs1.players.length then gs1.skip_inactive_players else .ok gs1) with
      | .error e => .error e
      | .ok gs2 =>
        let gs3 := if gs2.players.length ≤ 1 then { gs2 with is_active := false } else gs2
        .ok (some cp, gs3)

/-- `TurnProcessor.process_turn` (message_handler.py lines 79-126).  The
`Option GameState` argument is the result of the registry lookup at line 98.
Returns `(result, message, should_advance, state after the call)`.  The
membership check of lines 108-114 silences the `WRONG_PLAYER` message for
submitters who are not in the player list.  Any exception is caught by the
surrounding `try` and becomes `VALIDATION_ERROR` (lines 124-126). -/
def process_turn (validator : String → Except Unit Bool)
    (gso : Option GameState) (user_id : Int) (word : String) :
    GameResult × Option String × Bool × Option GameState :=
  match gso with
  | none => (.noActiveGame, some "No active game in this chat", false, none)
  | some gs =>
    if ¬ gs.is_active then
      (.noActiveGame, some "No active game in this chat", false, some gs)
    else
      match gs.get_current_player with
      | .error _ =>
        (.validationError, some "An error occurred processing your word", false, some gs)
      | .ok none => (.noActiveGame, some "No current player found", false, some gs)
      | .ok (some cp) =>
        if cp.user_id ≠ user_id then
          if gs.players.any (fun p => p.user_id == user_id) then
            (.wrongPlayer, some ("It is " ++ player_str cp ++ " turn, please wait"),
             false, some gs)
          else (.wrongPlayer, none, false, some gs)
        else
          let (r, m, gs') := game_manager_process_word validator gs user_id word
          (r, m, r == .validWord, some gs')

/-- `ResourceStatus` (concurrent_manager.py lines 18-23). -/
inductive ResourceStatus where
  | low | medium | high | critical
deriving DecidableEq, Repr

/-- `ResourceMonitor` (concurrent_manager.py lines 78-87): only the two
capacity limits matter to admission. -/
structure ResourceMonitor where
  max_games : Nat
  max_players_per_game : Nat
deriving DecidableEq, Repr

/-- `ResourceMonitor.get_resource_status` (concurrent_manager.py lines
89-100): classifies `active_games / max_games` against 0.9 / 0.7 / 0.4.
The Python float comparisons are modelled exactly as rational comparisons by
cross-multiplication (the scenario values 8/10 and 9/10 are exact in both
readings).  For `max_games = 0` the source raises `ZeroDivisionError`; that
case is unreachable from `can_create_game`, which rejects first, and the
classification theorems below assume `0 < max_games`. -/
def get_resource_status (m : ResourceMonitor) (active_games : Nat) : ResourceStatus :=
  if 9 * m.max_games ≤ 10 * active_games then .critical
  else if 7 * m.max_games ≤ 10 * active_games then .high
  else if 4 * m.max_games ≤ 10 * active_games then .medium
  else .low

/-- `ResourceMonitor.can_create_game` (concurrent_manager.py lines 102-117):
reject when the absolute game ceiling is reached, the requested player count
exceeds the per-game ceiling, or the classification is critical. -/
def can_create_game (m : ResourceMonitor) (active_games requesting_players : Nat) :
    Bool × Option String :=
  if m.max_games ≤ active_games then
    (false, some "Maximum concurrent games limit reached")
  else if m.max_players_per_game < requesting_players then
    (false, some "Too many players for one game")
  else if get_resource_status m active_games = .critical then
    (false, some "System resources are critically low")
  else (true, none)

/-- `TimerManager` (timer_manager.py lines 13-17): the keys of the
`_active_timers` dict (the task objects themselves are scheduler state). -/
structure TimerManager where
  active_timers : List Int
deriving DecidableEq, Repr

/-- `TimerManager.cancel_timer` (timer_manager.py lines 59-83): if the key is
present its entry is deleted and `True` is returned, otherwise `False`.
`del dict[key]` is modelled as filtering the key out of the key list. -/
def cancel_timer (tm : TimerManager) (chat_id : Int) : Bool × TimerManager :=
  if chat_id ∈ tm.active_timers then
    (true, ⟨tm.active_timers.filter (fun k => k ≠ chat_id)⟩)
  else (false, tm)

/-- The `GameManager` registry state needed by `stop_game` (game_manager.py):
the `_active_games` dict as an association list plus the resource monitor's
`game_metrics` keys and `historical_games` counter touched by
`register_game_end` (concurrent_manager.py lines 155-159, 289-291). -/
structure GameManager where
  active_games : List (Int × GameState)
  metrics_keys : List Int := []
  historical_games : Nat := 0
deriving DecidableEq, Repr

/-- `GameManager.stop_game` (game_manager.py lines 264-283): returns `False`
when the chat has no game; otherwise marks the game inactive, removes it
from the registry, folds its metrics into the historical counter and returns
`True`.  Timer-task cancellation is not modelled; the `is_active := false`
mutation happens on the object being dropped from the registry. -/
def stop_game (gm : GameManager) (chat_id : Int) : Bool × GameManager :=
  if gm.active_games.any (fun e => e.1 == chat_id) then
    (true,
     { gm with
        active_games := gm.active_games.filter (fun e => e.1 ≠ chat_id),
        metrics_keys := gm.metrics_keys.filter (fun k => k ≠ chat_id),
        historical_games :=
          if chat_id ∈ gm.metrics_keys then gm.historical_games + 1
          else gm.historical_games })
  else (false, gm)

/-! Concrete states used by the closed theorems and witnesses below.  They
mirror the fixtures of tests/test_word_processor.py lines 29-46 and
tests/test_edge_cases.py lines 154-173. -/

/-- Test fixture player Alice (user id 1). -/
def alice : Player := { user_id := 1, username := "player1", first_name := "Alice" }

/-- Test fixture player Bob (user id 2). -/
def bob : Player := { user_id := 2, username := "player2", first_name := "Bob" }

/-- An inactive player (user id 3), as produced by
`set_player_active_status(3, False)`. -/
def carl_inactive : Player :=
  { user_id := 3, username := "player3", first_name := "Carl", is_active := false }

/-- An active player (user id 4). -/
def dana : Player := { user_id := 4, username := "player4", first_name := "Dana" }

/-- The running-game fixture of tests/test_word_processor.py lines 29-46:
letter C, required length 3, Alice to move. -/
def gs_fixture : GameState :=
  { chat_id := 12345, current_letter := "C", required_length := 3,
    current_player_index := 0, players := [alice, bob], is_active := true,
    is_waiting_for_players := false }

/-- A running game whose current player (Alice) is followed by an inactive
player and an active one; used for the timeout counterexample. -/
def gs_three : GameState :=
  { chat_id := 777, current_letter := "C", required_length := 2,
    current_player_index := 0, players := [alice, carl_inactive, dana],
    is_active := true, is_waiting_for_players := false }

/-- The corrupted-index fixture of tests/test_edge_cases.py lines 154-166:
one player, `current_player_index = -1`. -/
def gs_negative : GameState :=
  { chat_id := 12345, current_letter := "C", required_length := 2,
    current_player_index := -1, players := [alice], is_active := true,
    is_waiting_for_players := false }

/-! ## Theorems -/

/-! Helper lemmas shared by several claim theorems. -/

/-- With a non-negative in-range index, `get_current_player` returns the
player at that position. -/
theorem get_current_player_of_nat (gs : GameState) (j : Nat)
    (hj : gs.current_player_index = (j : Int)) (hlt : j < gs.players.length) :
    gs.get_current_player = .ok (some (gs.players.get ⟨j, hlt⟩)) := by
  unfold GameState.get_current_player py_get
  have hne : gs.players.isEmpty = false := by
    cases h : gs.players with
    | nil => rw [h] at hlt; simp at hlt
    | cons a l => rfl
  rw [hj]
  rw [if_neg (by rw [hne]; push_neg; exact ⟨by simp, by exact_mod_cast hlt⟩)]
  rw [dif_pos (⟨Int.ofNat_nonneg j, by simpa using hlt⟩ :
        0 ≤ (j : Int) ∧ (j : Int).toNat < gs.players.length)]
  rfl

/-- With a non-negative index, `get_current_player` never raises. -/
theorem get_current_player_ne_error (gs : GameState)
    (h0 : 0 ≤ gs.current_player_index) (e : Unit) :
    gs.get_current_player ≠ .error e := by
  unfold GameState.get_current_player py_get
  by_cases hg : gs.players.isEmpty = true ∨
      (gs.players.length : Int) ≤ gs.current_player_index
  · rw [if_pos hg]; simp
  · rw [if_neg hg]
    push_neg at hg
    rw [dif_pos ⟨h0, by omega⟩]
    simp [Except.map]

/-- `first_idx_with_id` fails exactly when no player has the id. -/
theorem first_idx_with_id_eq_none (uid : Int) (l : List Player) :
    first_idx_with_id uid l = none ↔ ∀ p ∈ l, p.user_id ≠ uid := by
  induction l with
  | nil => simp [first_idx_with_id]
  | cons a t ih =>
    unfold first_idx_with_id
    by_cases h : a.user_id = uid
    · simp [h]
    · simp [h, Option.map_eq_none', ih]

/-- A successful `first_idx_with_id` points inside the list at a player with
the searched id. -/
theorem first_idx_with_id_eq_some (uid : Int) (l : List Player) (i : Nat)
    (h : first_idx_with_id uid l = some i) :
    ∃ hi : i < l.length, (l.get ⟨i, hi⟩).user_id = uid := by
  induction l generalizing i with
  | nil => simp [first_idx_with_id] at h
  | cons a t ih =>
    unfold first_idx_with_id at h
    by_cases ha : a.user_id = uid
    · rw [if_pos ha] at h
      cases h
      exact ⟨by simp, ha⟩
    · rw [if_neg ha, Option.map_eq_some'] at h
      obtain ⟨j, hj, rfl⟩ := h
      obtain ⟨hjl, hje⟩ := ih j hj
      exact ⟨by simpa using Nat.succ_lt_succ hjl, hje⟩

/-- When user ids are pairwise distinct, the scan finds the current
position itself. -/
theorem first_idx_with_id_of_nodup (l : List Player) (k : Nat)
    (hk : k < l.length) (hnd : (l.map Player.user_id).Nodup) :
    first_idx_with_id (l.get ⟨k, hk⟩).user_id l = some k := by
  induction l generalizing k with
  | nil => simp at hk
  | cons a t ih =>
    rw [List.map_cons, List.nodup_cons] at hnd
    cases k with
    | zero => simp [first_idx_with_id]
    | succ k =>
      have hk' : k < t.length := by simpa using hk
      have hget : (a :: t).get ⟨k + 1, hk⟩ = t.get ⟨k, hk'⟩ := rfl
      unfold first_idx_with_id
      rw [hget, if_neg ?_, ih k hk' hnd.2]
      · rfl
      · intro heq
        exact hnd.1 (heq ▸ List.mem_map_of_mem Player.user_id (t.get_mem k hk'))

/-- The bounded skip loop never raises from a non-negative index and only
moves the turn pointer: players, activity flag and every other field are
untouched. -/
theorem skip_go_preserves (fuel : Nat) : ∀ gs : GameState,
    0 ≤ gs.current_player_index →
    ∃ gs', gs.skip_go fuel = .ok gs' ∧ gs'.players = gs.players ∧
      gs'.is_active = gs.is_active ∧ 0 ≤ gs'.current_player_index := by
  induction fuel with
  | zero => exact fun gs h0 => ⟨gs, rfl, rfl, rfl, h0⟩
  | succ n ih =>
    intro gs h0
    unfold GameState.skip_go
    cases hh : gs.get_current_player with
    | error e => exact absurd hh (get_current_player_ne_error gs h0 e)
    | ok o =>
      by_cases hb : (o.map Player.is_active).getD false
      · exact ⟨gs, by simp [hb], rfl, rfl, h0⟩
      · have h0' : (0 : Int) ≤ (gs.current_player_index + 1) %
            (gs.players.length : Int) := by
          by_cases hlen : gs.players.length = 0
          · rw [hlen, Nat.cast_zero, Int.emod_zero]
            omega
          · exact Int.emod_nonneg _ (by exact_mod_cast hlen)
        obtain ⟨gs', h1, h2, h3, h4⟩ :=
          ih { gs with current_player_index :=
                (gs.current_player_index + 1) % (gs.players.length : Int) } h0'
        exact ⟨gs', by simp [hb, h1], h2, h3, h4⟩

/-- `skip_inactive_players` from a non-negative index: succeeds and
preserves the player list and the activity flag. -/
theorem skip_inactive_players_preserves (gs : GameState)
    (h0 : 0 ≤ gs.current_player_index) :
    ∃ gs', gs.skip_inactive_players = .ok gs' ∧ gs'.players = gs.players ∧
      gs'.is_active = gs.is_active := by
  unfold GameState.skip_inactive_players
  by_cases hne : gs.players.isEmpty
  · exact ⟨gs, by rw [if_pos hne], rfl, rfl⟩
  · obtain ⟨gs', h1, h2, h3, -⟩ := skip_go_preserves gs.players.length gs h0
    exact ⟨gs', by rw [if_neg hne]; exact h1, h2, h3⟩

/-- Reading a position of `eraseIdx`: positions before the removed index are
unchanged, positions at or after it shift down by one. -/
theorem get_eraseIdx_eq (l : List Player) (i j k : Nat)
    (hj : j < (l.eraseIdx i).length) (hk : k < l.length)
    (hcase : (j < i ∧ k = j) ∨ (i ≤ j ∧ k = j + 1)) :
    (l.eraseIdx i).get ⟨j, hj⟩ = l.get ⟨k, hk⟩ := by
  rcases hcase with ⟨hlt, hkj⟩ | ⟨hge, hkj⟩ <;> subst hkj <;>
    simp only [List.get_eq_getElem]
  · rw [List.getElem_eraseIdx_of_lt l i k hj hlt]
  · rw [List.getElem_eraseIdx_of_ge l i j hj hge]

/-- Claim C10: `add_player` returns false exactly for a duplicate identity or a
full room; a false return leaves the state untouched, and the player count
never grows beyond the configured maximum. -/
theorem add_player_spec (gs : GameState) (p : Player) :
    ((gs.add_player p).1 = false ↔
      (∃ q ∈ gs.players, q.user_id = p.user_id) ∨
        gs.game_config.max_players_per_game ≤ gs.players.length) ∧
    ((gs.add_player p).1 = false → (gs.add_player p).2 = gs) ∧
    (gs.players.length ≤ gs.game_config.max_players_per_game →
      (gs.add_player p).2.players.length ≤ gs.game_config.max_players_per_game) := by
  refine ⟨?_, ?_, ?_⟩ <;> unfold GameState.add_player
  · split_ifs with h1 h2
    · simp only [List.any_eq_true, beq_iff_eq] at h1
      exact iff_of_true rfl (Or.inl h1)
    · exact iff_of_true rfl (Or.inr h2)
    · simp only [List.any_eq_true, beq_iff_eq] at h1
      refine iff_of_false (by simp) ?_
      rintro (h | h)
      · exact h1 h
      · exact h2 h
  · split_ifs with h1 h2 <;> intro hf
    · rfl
    · rfl
    · exact absurd hf (by simp)
  · intro hle
    split_ifs with h1 h2
    · exact hle
    · exact hle
    · simp only [List.length_append, List.length_cons, List.length_nil]
      omega

/-- Witness for C10 at a concrete input: re-adding Alice to the fixture room
fails and leaves the room as it was. -/
theorem add_player_spec_witness :
    (gs_fixture.add_player alice).1 = false ∧
      (gs_fixture.add_player alice).2 = gs_fixture :=
  ⟨by decide, (add_player_spec gs_fixture alice).2.1 (by decide)⟩

/-- Claim C5: the load classification is by the room-count ratio against the
ceiling (`<40%` low, `<70%` medium, `<90%` high, `≥90%` critical), and
admission rejects exactly when the absolute room ceiling is reached, the
requested player count exceeds the per-room ceiling, or the classification
is critical; at 9 of 10 rooms every request is rejected and at 8 of 10 every
request with an admissible player count is accepted. -/
theorem can_create_game_spec (m : ResourceMonitor) (a req : Nat) :
    (0 < m.max_games →
      ((get_resource_status m a = .low ↔ 10 * a < 4 * m.max_games) ∧
       (get_resource_status m a = .medium ↔
          4 * m.max_games ≤ 10 * a ∧ 10 * a < 7 * m.max_games) ∧
       (get_resource_status m a = .high ↔
          7 * m.max_games ≤ 10 * a ∧ 10 * a < 9 * m.max_games) ∧
       (get_resource_status m a = .critical ↔ 9 * m.max_games ≤ 10 * a))) ∧
    ((can_create_game m a req).1 = false ↔
      (m.max_games ≤ a ∨ m.max_players_per_game < req ∨
        get_resource_status m a = .critical)) ∧
    (can_create_game ⟨10, 10⟩ 9 req).1 = false ∧
    (req ≤ 10 → (can_create_game ⟨10, 10⟩ 8 req).1 = true) := by
  refine ⟨fun _ => ?_, ?_, ?_, fun hreq => ?_⟩
  · unfold get_resource_status
    split_ifs with h1 h2 h3 <;>
      refine ⟨?_, ?_, ?_, ?_⟩ <;> simp_all <;> omega
  · unfold can_create_game
    split_ifs with h1 h2 h3 <;> simp_all
  · unfold can_create_game get_resource_status
    split_ifs <;> simp_all
  · unfold can_create_game get_resource_status
    split_ifs <;> simp_all
    omega

/-- Witness for C5 at the scenario inputs: 8 of 10 rooms is classified high
and accepted, 9 of 10 is rejected. -/
theorem can_create_game_spec_witness :
    (can_create_game ⟨10, 10⟩ 8 2).1 = true ∧
      (can_create_game ⟨10, 10⟩ 9 2).1 = false :=
  ⟨(can_create_game_spec ⟨10, 10⟩ 8 2).2.2.2 (by decide),
   (can_create_game_spec ⟨10, 10⟩ 9 2).2.2.1⟩

/-- Claim C8: cancelling an active timer returns true and cancelling it again
returns false; stopping a room that is not in the registry returns false,
and stopping a registered room twice returns true then false. -/
theorem cancel_and_stop_idempotence (tm : TimerManager) (gm : GameManager)
    (key chat : Int) :
    (key ∈ tm.active_timers →
      (cancel_timer tm key).1 = true ∧
        (cancel_timer (cancel_timer tm key).2 key).1 = false) ∧
    ((∀ e ∈ gm.active_games, e.1 ≠ chat) → (stop_game gm chat).1 = false) ∧
    ((∃ e ∈ gm.active_games, e.1 = chat) →
      (stop_game gm chat).1 = true ∧
        (stop_game (stop_game gm chat).2 chat).1 = false) := by
  refine ⟨fun hmem => ?_, fun habs => ?_, fun hmem => ?_⟩
  · unfold cancel_timer
    have hnot : key ∉ tm.active_timers.filter (fun k => decide (k ≠ key)) := by
      intro hx
      simpa using (List.mem_filter.mp hx).2
    simp [hmem, hnot]
  · unfold stop_game
    have h : gm.active_games.any (fun e => e.1 == chat) = false := by
      rw [← Bool.not_eq_true]
      simp only [List.any_eq_true, beq_iff_eq]
      rintro ⟨e, he, hc⟩
      exact habs e he hc
    simp [h]
  · unfold stop_game
    have hany : gm.active_games.any (fun e => e.1 == chat) = true := by
      simp only [List.any_eq_true, beq_iff_eq]
      exact hmem
    have hnot : (gm.active_games.filter (fun e => decide (e.1 ≠ chat))).any
        (fun e => e.1 == chat) = false := by
      rw [← Bool.not_eq_true]
      simp only [List.any_eq_true, beq_iff_eq]
      rintro ⟨e, he, hc⟩
      have := (List.mem_filter.mp he).2
      simp [hc] at this
    simp [hany, hnot]

/-- Witness for C8 at concrete inputs: timer key 5 cancels once, a
registered room 5 stops once, and room 6 (absent) does not stop. -/
theorem cancel_and_stop_idempotence_witness :
    ((cancel_timer ⟨[5]⟩ 5).1 = true ∧
      (cancel_timer (cancel_timer ⟨[5]⟩ 5).2 5).1 = false) ∧
    ((stop_game ⟨[(5, gs_fixture)], [5], 0⟩ 6).1 = false) ∧
    ((stop_game ⟨[(5, gs_fixture)], [5], 0⟩ 5).1 = true ∧
      (stop_game (stop_game ⟨[(5, gs_fixture)], [5], 0⟩ 5).2 5).1 = false) :=
  ⟨(cancel_and_stop_idempotence ⟨[5]⟩ ⟨[], [], 0⟩ 5 0).1 (by decide),
   (cancel_and_stop_idempotence ⟨[]⟩ ⟨[(5, gs_fixture)], [5], 0⟩ 0 6).2.1 (by decide),
   (cancel_and_stop_idempotence ⟨[]⟩ ⟨[(5, gs_fixture)], [5], 0⟩ 0 5).2.2
     ⟨(5, gs_fixture), by decide, rfl⟩⟩

/-- Claim C6: after an accepted word the required letter is the word's last
character (uppercased), the turn advances by one position modulo the player
count, and the round-turn counter increments; when it reaches the player
count the round completes, the round counter increments, the round-turn
counter resets, and the minimum length grows by one exactly when the newly
completed round count is even — never after an odd-numbered round. -/
theorem get_next_game_state_spec (word : String) (gs : GameState)
    (hw : word ≠ "") (hp : gs.players ≠ []) :
    (get_next_game_state word gs).current_letter =
      String.mk [(py_back word).toUpper] ∧
    (get_next_game_state word gs).current_player_index =
      (gs.current_player_index + 1) % (gs.players.length : Int) ∧
    (get_next_game_state word gs).players = gs.players ∧
    (gs.current_round_turns + 1 < gs.players.length →
      (get_next_game_state word gs).current_round_turns = gs.current_round_turns + 1 ∧
      (get_next_game_state word gs).rounds_completed = gs.rounds_completed ∧
      (get_next_game_state word gs).required_length = gs.required_length) ∧
    (gs.players.length ≤ gs.current_round_turns + 1 →
      (get_next_game_state word gs).current_round_turns = 0 ∧
      (get_next_game_state word gs).rounds_completed = gs.rounds_completed + 1 ∧
      (Even (gs.rounds_completed + 1) →
        (get_next_game_state word gs).required_length = gs.required_length + 1) ∧
      (¬ Even (gs.rounds_completed + 1) →
        (get_next_game_state word gs).required_length = gs.required_length)) := by
  have hne : gs.players.isEmpty = false := by
    cases h : gs.players with
    | nil => exact absurd h hp
    | cons a l => rfl
  unfold get_next_game_state GameState.advance_turn
  simp only [hne, Bool.false_eq_true, if_false]
  constructor
  · split_ifs <;> rfl
  · constructor
    · split_ifs <;> rfl
    · constructor
      · split_ifs <;> rfl
      · constructor
        · intro hlt
          rw [if_neg (by simpa using Nat.not_le.mpr hlt)]
          exact ⟨rfl, rfl, rfl⟩
        · intro hge
          rw [if_pos (by simpa using hge)]
          refine ⟨?_, ?_, fun hev => ?_, fun hodd => ?_⟩
          · split_ifs <;> rfl
          · split_ifs <;> rfl
          · rw [if_pos ?_]
            rw [Nat.even_iff] at hev
            exact ⟨by omega, hev⟩
          · rw [if_neg ?_]
            rw [Nat.even_iff] at hodd
            rintro ⟨-, hmod⟩
            exact hodd hmod

/-- Witness for C6 at a concrete input: in the two-player fixture Alice's
accepted "cat" sets the letter to T, passes the turn to Bob and leaves the
required length unchanged (the round is not yet complete). -/
theorem get_next_game_state_spec_witness :
    (get_next_game_state "cat" gs_fixture).current_letter = "T" ∧
    (get_next_game_state "cat" gs_fixture).current_player_index = 1 ∧
    (get_next_game_state "cat" gs_fixture).required_length =
      gs_fixture.required_length := by
  have h := get_next_game_state_spec "cat" gs_fixture (by decide) (by decide)
  refine ⟨?_, ?_, (h.2.2.2.1 (by decide)).2.2⟩
  · rw [h.1]; decide
  · rw [h.2.1]; decide

/-- Claim C9 (behaviour at the failing input): on the corrupted-index fixture of
tests/test_edge_cases.py — one player, `current_player_index = -1` —
`get_current_player` does not return none as the spec and the repo's own
test assert: Python negative indexing makes it return the last player, and
an index below `-len(players)` raises `IndexError`. -/
theorem get_current_player_negative_index :
    gs_negative.get_current_player = .ok (some alice) ∧
    ({ gs_negative with current_player_index := -2 } : GameState).get_current_player =
      .error () := by decide

/-- Claim C1 (behaviour at the failing input): `GameState` declares no
`used_words` attribute, so a submission that passes the format checks
answers `VALIDATION_ERROR` with the generic blanket-except message and
leaves the state unchanged — for every behaviour of the dictionary
capability.  No word is ever accepted, the used-word set never exists, and
a duplicate is never answered `INVALID_WORD`.  The last two conjuncts show
the intended no-repeat semantics is present in the code but unreachable: on
a counterfactual state carrying the attribute, a duplicate is rejected as
`INVALID_WORD` and an accepted word grows the set. -/
theorem used_words_attribute_missing :
    process_word_submission (fun _ => .ok true) gs_fixture 1 "cat" =
      (.validationError, some "An error occurred while processing your word",
       gs_fixture) ∧
    process_word_submission (fun _ => .ok false) gs_fixture 1 "cat" =
      (.validationError, some "An error occurred while processing your word",
       gs_fixture) ∧
    process_word_submission (fun _ => .error ()) gs_fixture 1 "cat" =
      (.validationError, some "An error occurred while processing your word",
       gs_fixture) ∧
    process_word_submission (fun _ => .ok true)
        { gs_fixture with used_words := some ["cat"] } 1 "cat" =
      (.invalidWord, some "has already been used",
       { gs_fixture with used_words := some ["cat"] }) ∧
    process_word_submission (fun _ => .ok true)
        { gs_fixture with used_words := some [] } 1 "cat" =
      (.validWord, none, { gs_fixture with used_words := some ["cat"] }) := by
  decide

/-- Claim C3 (behaviour at the failing input): with the dictionary capability
raising its unavailable signal, the result is `VALIDATION_ERROR` with the
generic blanket-except message — not the dedicated service-unavailable
message of word_processor.py line 89 — because the `AttributeError` on the
missing `used_words` attribute fires before the dictionary is ever
consulted; the identical outcome under an always-true capability shows the
capability is not reached.  On a counterfactual state carrying the
attribute, the unavailable signal is handled exactly as the claim states:
`VALIDATION_ERROR`, used-word set unchanged, turn unchanged. -/
theorem validation_service_unavailable_unreachable :
    process_word_submission (fun _ => .error ()) gs_fixture 1 "cat" =
      (.validationError, some "An error occurred while processing your word",
       gs_fixture) ∧
    process_word_submission (fun _ => .error ()) gs_fixture 1 "cat" =
      process_word_submission (fun _ => .ok true) gs_fixture 1 "cat" ∧
    process_word_submission (fun _ => .error ())
        { gs_fixture with used_words := some [] } 1 "cat" =
      (.validationError, some "Word validation service is temporarily unavailable",
       { gs_fixture with used_words := some [] }) := by
  decide

/-- Counterexample for claim C7: a submitter (id 99) who is not in the fixture room's
player list still receives a `WRONG_PLAYER` message from
`process_word_submission` — the claimed membership-gated silence does not
hold for that function. -/
theorem wrong_player_message_counterexample :
    (process_word_submission (fun _ => .ok true) gs_fixture 99 "cat").1 =
      .wrongPlayer ∧
    (process_word_submission (fun _ => .ok true) gs_fixture 99 "cat").2.1.isSome =
      true ∧
    gs_fixture.players.any (fun p => p.user_id == 99) = false := by decide

/-- Claim C2: with a resolvable current turn (index `k` in range) and the target
id present at first position `i`, `remove_player` reports a removal,
removes exactly that entry, and adjusts the index so the same relative
successor is current: when some other player is removed the previously
current player keeps the turn, and when the current player is removed the
previously next player `(k+1) mod n` becomes current (wrapping to the front
when the removed current player was last); the returned flag is true
exactly when a player with the searched id exists. -/
theorem remove_player_spec (gs : GameState) (uid : Int) (k i : Nat)
    (hk : gs.current_player_index = (k : Int)) (hkn : k < gs.players.length)
    (hfind : first_idx_with_id uid gs.players = some i) :
    (gs.remove_player uid).1 = true ∧
    (∀ uid2 : Int, ((gs.remove_player uid2).1 = true ↔
      ∃ p ∈ gs.players, p.user_id = uid2)) ∧
    (gs.remove_player uid).2.players = gs.players.eraseIdx i ∧
    (∃ hi : i < gs.players.length, (gs.players.get ⟨i, hi⟩).user_id = uid) ∧
    (i ≠ k →
      (gs.remove_player uid).2.get_current_player =
        .ok (some (gs.players.get ⟨k, hkn⟩))) ∧
    (i = k → 2 ≤ gs.players.length →
      (gs.remove_player uid).2.get_current_player =
        .ok (some (gs.players.get
          ⟨(k + 1) % gs.players.length,
           Nat.mod_lt _ (Nat.lt_of_le_of_lt (Nat.zero_le k) hkn)⟩))) := by
  obtain ⟨hi, hid⟩ := first_idx_with_id_eq_some uid gs.players i hfind
  have hlen' : (gs.players.eraseIdx i).length = gs.players.length - 1 :=
    List.length_eraseIdx_of_lt hi
  refine ⟨?_, ?_, ?_, ⟨hi, hid⟩, ?_, ?_⟩
  · unfold GameState.remove_player
    rw [hfind]
  · intro uid2
    unfold GameState.remove_player
    cases hh : first_idx_with_id uid2 gs.players with
    | none =>
      refine iff_of_false (by simp) ?_
      rintro ⟨p, hp, he⟩
      exact (first_idx_with_id_eq_none uid2 gs.players).mp hh p hp he
    | some j =>
      obtain ⟨hj, hje⟩ := first_idx_with_id_eq_some uid2 gs.players j hh
      exact iff_of_true rfl ⟨gs.players.get ⟨j, hj⟩, gs.players.get_mem j hj, hje⟩
  · unfold GameState.remove_player
    rw [hfind]
  · intro hik
    unfold GameState.remove_player
    simp only [hfind, hk]
    rcases Nat.lt_or_ge i k with hlt | hge
    · rw [if_pos (by exact_mod_cast hlt)]
      rw [get_current_player_of_nat _ (k - 1) (by push_cast; omega)
        (by rw [hlen']; omega)]
      rw [get_eraseIdx_eq gs.players i (k - 1) k (by rw [hlen']; omega) hkn
        (Or.inr ⟨by omega, by omega⟩)]
    · have hgt : k < i := lt_of_le_of_ne hge (Ne.symm hik)
      rw [if_neg (by exact_mod_cast Nat.not_lt.mpr (le_of_lt hgt)),
        if_neg (by rintro ⟨h1, -⟩; exact hik (by exact_mod_cast h1))]
      rw [get_current_player_of_nat _ k rfl (by rw [hlen']; omega)]
      rw [get_eraseIdx_eq gs.players i k k (by rw [hlen']; omega) hkn
        (Or.inl ⟨hgt, rfl⟩)]
  · intro hik hn2
    subst hik
    unfold GameState.remove_player
    simp only [hfind, hk]
    rw [if_neg (by omega)]
    by_cases hlast : ((gs.players.length : Int) - 1 ≤ (i : Int))
    · have hieq : i = gs.players.length - 1 := by omega
      rw [if_pos ⟨trivial, hlast⟩]
      rw [get_current_player_of_nat _ 0 rfl (by rw [hlen']; omega)]
      rw [get_eraseIdx_eq gs.players i 0 0 (by rw [hlen']; omega) (by omega)
        (Or.inl ⟨by omega, rfl⟩)]
      have hmod : (i + 1) % gs.players.length = 0 := by
        rw [show i + 1 = gs.players.length by omega, Nat.mod_self]
      congr 1
      simp only [Option.some.injEq]
      congr 1
      exact Fin.ext hmod.symm
    · rw [if_neg (by rintro ⟨-, h2⟩; exact hlast h2)]
      rw [get_current_player_of_nat _ i rfl (by rw [hlen']; omega)]
      rw [get_eraseIdx_eq gs.players i i (i + 1) (by rw [hlen']; omega)
        (by omega) (Or.inr ⟨le_refl i, rfl⟩)]
      have hmod : (i + 1) % gs.players.length = i + 1 :=
        Nat.mod_eq_of_lt (by omega)
      congr 1
      simp only [Option.some.injEq]
      congr 1
      exact Fin.ext hmod.symm

/-- Counterexample for claim C4: in a room of three where an inactive player remains
after the timed-out current player is eliminated, the game stays active
(`is_active = true`) although `should_end_game` (active-player count ≤ 1)
already holds — termination is not decided by `should_end_game` but by the
total player count. -/
theorem handle_timeout_counterexample :
    (handle_timeout gs_three).map
      (fun r => (r.2.is_active, r.2.should_end_game)) = .ok (true, true) := by
  decide

/-- Claim C4 (amended): with an active game, a resolvable current player at index
`k` and pairwise-distinct user ids, `handle_timeout` returns that player as
eliminated and removes exactly them; the game is marked terminal exactly
when the total remaining player count is at most one — which in turn
implies `should_end_game`. -/
theorem handle_timeout_spec (gs : GameState) (k : Nat)
    (ha : gs.is_active = true)
    (hk : gs.current_player_index = (k : Int)) (hkn : k < gs.players.length)
    (hnd : (gs.players.map Player.user_id).Nodup) :
    ∃ gs', handle_timeout gs = .ok (some (gs.players.get ⟨k, hkn⟩), gs') ∧
      gs'.players = gs.players.eraseIdx k ∧
      (gs'.is_active = false ↔ gs.players.length - 1 ≤ 1) ∧
      (gs'.is_active = false → gs'.should_end_game = true) := by
  have hlen' : (gs.players.eraseIdx k).length = gs.players.length - 1 :=
    List.length_eraseIdx_of_lt hkn
  have hfind := first_idx_with_id_of_nodup gs.players k hkn hnd
  unfold handle_timeout
  rw [if_neg (by simp [ha])]
  simp only [get_current_player_of_nat gs k hk hkn]
  unfold GameState.remove_player
  simp only [hfind, hk]
  rw [if_neg (lt_irrefl ((k : Int)))]
  simp only [true_and]
  by_cases hlast : ((gs.players.length : Int) - 1 ≤ (k : Int))
  · rw [if_pos hlast]
    by_cases hbig : 1 < (gs.players.eraseIdx k).length
    · obtain ⟨gs2, hskip, hpl, hact⟩ := skip_inactive_players_preserves
        { gs with current_player_index := 0, players := gs.players.eraseIdx k }
        (le_refl 0)
      dsimp only at hpl hact
      rw [if_pos hbig]
      simp only [hskip]
      rw [if_neg (by rw [hpl]; omega)]
      refine ⟨gs2, rfl, hpl, iff_of_false ?_ (by omega), fun h => absurd h ?_⟩ <;>
        rw [hact, ha] <;> simp
    · rw [if_neg hbig]
      simp only [hbig, if_false]
      rw [if_pos (show (gs.players.eraseIdx k).length ≤ 1 by omega)]
      refine ⟨_, rfl, rfl, iff_of_true rfl (by omega), fun _ => ?_⟩
      unfold GameState.should_end_game
      simp only [decide_eq_true_eq]
      exact le_trans (List.length_filter_le _ _) (by omega)
  · rw [if_neg hlast]
    by_cases hbig : 1 < (gs.players.eraseIdx k).length
    · obtain ⟨gs2, hskip, hpl, hact⟩ := skip_inactive_players_preserves
        { gs with current_player_index := (k : Int),
                  players := gs.players.eraseIdx k }
        (Int.ofNat_nonneg k)
      dsimp only at hpl hact
      rw [if_pos hbig]
      simp only [hskip]
      rw [if_neg (by rw [hpl]; omega)]
      refine ⟨gs2, rfl, hpl, iff_of_false ?_ (by omega), fun h => absurd h ?_⟩ <;>
        rw [hact, ha] <;> simp
    · rw [if_neg hbig]
      simp only [hbig, if_false]
      rw [if_pos (show (gs.players.eraseIdx k).length ≤ 1 by omega)]
      refine ⟨_, rfl, rfl, iff_of_true rfl (by omega), fun _ => ?_⟩
      unfold GameState.should_end_game
      simp only [decide_eq_true_eq]
      exact le_trans (List.length_filter_le _ _) (by omega)

/-- Witness for C4 at a concrete input: Alice times out in the two-player
fixture, is eliminated, and the game is marked terminal (one player left). -/
theorem handle_timeout_spec_witness :
    ∃ gs', handle_timeout gs_fixture =
        .ok (some (gs_fixture.players.get ⟨0, by decide⟩), gs') ∧
      gs'.players = gs_fixture.players.eraseIdx 0 ∧
      (gs'.is_active = false ↔ gs_fixture.players.length - 1 ≤ 1) ∧
      (gs'.is_active = false → gs'.should_end_game = true) :=
  handle_timeout_spec gs_fixture 0 (by decide) (by decide) (by decide) (by decide)

/-- Claim C7 (amended): for a submitter who is not the current player,
`process_word_submission` answers `WRONG_PLAYER` always carrying a message
and leaves the state unchanged, while the membership-gated silence lives
one level up in `TurnProcessor.process_turn`, whose `WRONG_PLAYER` answer
carries a message exactly when the submitter is a recognized room member. -/
theorem wrong_player_spec (validator : String → Except Unit Bool)
    (gs : GameState) (uid : Int) (word : String) (cp : Player)
    (ha : gs.is_active = true) (hcp : gs.get_current_player = .ok (some cp))
    (hne : cp.user_id ≠ uid) :
    process_word_submission validator gs uid word =
      (.wrongPlayer, some (wrong_turn_message cp), gs) ∧
    (process_turn validator (some gs) uid word).1 = .wrongPlayer ∧
    (process_turn validator (some gs) uid word).2.2.2 = some gs ∧
    ((process_turn validator (some gs) uid word).2.1 ≠ none ↔
      ∃ p ∈ gs.players, p.user_id = uid) := by
  have h1 : process_word_submission validator gs uid word =
      (.wrongPlayer, some (wrong_turn_message cp), gs) := by
    unfold process_word_submission
    rw [if_neg (by simp [ha])]
    simp only [hcp]
    rw [if_pos hne]
  have h2 : process_turn validator (some gs) uid word =
      (.wrongPlayer,
       (if gs.players.any (fun p => p.user_id == uid) then
          some ("It is " ++ player_str cp ++ " turn, please wait")
        else none),
       false, some gs) := by
    unfold process_turn
    dsimp only
    rw [if_neg (not_not_intro ha)]
    simp only [hcp]
    rw [if_pos hne]
    by_cases hmem : gs.players.any (fun p => p.user_id == uid)
    · rw [if_pos hmem, if_pos hmem]
    · rw [if_neg hmem, if_neg hmem]
  rw [h2]
  refine ⟨h1, rfl, rfl, ?_⟩
  by_cases hmem : gs.players.any (fun p => p.user_id == uid)
  · rw [if_pos hmem]
    refine iff_of_true (by simp) ?_
    simpa [List.any_eq_true] using hmem
  · rw [if_neg hmem]
    refine iff_of_false (by simp) ?_
    rintro ⟨p, hp, he⟩
    exact hmem (List.any_eq_true.mpr ⟨p, hp, by simpa using he⟩)

/-- Witness for C7 at a concrete input: Bob (a recognized member) submits
out of turn in the fixture room; `process_word_submission` answers
`WRONG_PLAYER` with a message, and `process_turn` carries a message exactly
because Bob is in the player list. -/
theorem wrong_player_spec_witness :
    process_word_submission (fun _ => .ok true) gs_fixture 2 "cat" =
      (.wrongPlayer, some (wrong_turn_message alice), gs_fixture) ∧
    ((process_turn (fun _ => .ok true) (some gs_fixture) 2 "cat").2.1 ≠ none ↔
      ∃ p ∈ gs_fixture.players, p.user_id = 2) :=
  ⟨(wrong_player_spec (fun _ => .ok true) gs_fixture 2 "cat" alice
      (by decide) (by decide) (by decide)).1,
   (wrong_player_spec (fun _ => .ok true) gs_fixture 2 "cat" alice
      (by decide) (by decide) (by decide)).2.2.2⟩

/-- Witness for C2 at a concrete input: removing current player Alice from
the two-player fixture succeeds and makes Bob (the relative successor)
current. -/
theorem remove_player_spec_witness :
    (gs_fixture.remove_player 1).1 = true ∧
    (gs_fixture.remove_player 1).2.get_current_player = .ok (some bob) := by
  have h := remove_player_spec gs_fixture 1 0 0 (by decide) (by decide) (by decide)
  refine ⟨h.1, ?_⟩
  rw [h.2.2.2.2.2 rfl (by decide)]
  decide

end WordChain
